import Mathlib

/-!
Verification of the vc5 tiled-surface memory-layout planner
(`src/gallium/drivers/vc5/vc5_resource.c`): `vc5_get_ub_pad`,
`vc5_setup_slices`, `vc5_layer_offset` and the stride validation of
`vc5_resource_from_handle`, against its natural-language specification.

Machine integers in the source are `uint32_t`; all quantities involved
(dimensions, strides, offsets) stay far below `2^32` for the inputs we
consider, so they are embedded as `Nat`, with every C subtraction occurring
only under a guard that makes it non-negative (checked at each use site).
-/

set_option maxRecDepth 10000

namespace VC5

/-- Modelled from the spec: `u_minify` (mesa `util/u_math.h`, not part of the
excerpt) computes a mip level's dimension as `MAX2(value >> levels, 1)`; the
spec (§4.2) calls this "minified by `2^level`". -/
def u_minify (value levels : Nat) : Nat := max (value >>> levels) 1

/-- Fuel-carrying helper for `util_next_power_of_two` (structural recursion so
that the kernel can evaluate it): the smallest power of two that is at least
`x`, computed as `2 * npo2 (ceil (x/2))` for `x ≥ 2`. -/
def npo2Fuel : Nat → Nat → Nat
  | 0, _ => 1
  | fuel + 1, x => if x ≤ 1 then 1 else 2 * npo2Fuel fuel ((x + 1) / 2)

/-- Modelled from the spec: `util_next_power_of_two` (mesa `util/u_math.h`,
not part of the excerpt) returns the smallest power of two `≥ x` (1 for
`x ≤ 1`); the in-file comment above `vc5_setup_slices` documents exactly this
behaviour ("at a level 0 dimension of 9, the level 1 power-of-two padded
value is 4, not 8", i.e. `util_next_power_of_two 4 = 4`). -/
def util_next_power_of_two (x : Nat) : Nat := npo2Fuel x x

/-- Modelled from the spec: mesa's `align(v, a)` macro rounds `v` up to the
next multiple of the power-of-two `a`; for a power of two (the only
alignments the planner uses) the bit-mask form equals this division form. -/
def align (v a : Nat) : Nat := ((v + a - 1) / a) * a

/-- Modelled from the spec: mesa's `DIV_ROUND_UP(a, b) = (a + b - 1) / b`,
used to round dimensions up to format block granularity. -/
def DIV_ROUND_UP (a b : Nat) : Nat := (a + b - 1) / b

/-- Modelled from the spec: the hardware parameters consumed by the planner.
`vc5_utile_width`/`vc5_utile_height` (vc5_tiling.c) and the UIF constants
`VC5_UIFCFG_PAGE_SIZE`, `VC5_PAGE_CACHE_SIZE`, `VC5_UIFBLOCK_ROW_SIZE`
(vc5_tiling.h) are not part of the excerpt; the spec only says the micro-tile
dimensions are "derived from bytes-per-texel" and calls the derived row
counts "fixed hardware constants" (§4.2).  They are therefore carried as an
abstract parameter record; theorems are proved for every value (under the
stated positivity/ordering side conditions true of the hardware values) and
witnesses instantiate the v3.3 values `utile 4×4` (cpp = 4), page 4096,
page cache 32768, UIF-block row 1024. -/
structure HwInfo where
  utile_w : Nat
  utile_h : Nat
  uifPageSize : Nat
  pageCacheSize : Nat
  uifblockRowSize : Nat
deriving DecidableEq

/-- `#define PAGE_UB_ROWS (VC5_UIFCFG_PAGE_SIZE / VC5_UIFBLOCK_ROW_SIZE)` -/
def PAGE_UB_ROWS (hw : HwInfo) : Nat := hw.uifPageSize / hw.uifblockRowSize

/-- `#define PAGE_UB_ROWS_TIMES_1_5 ((PAGE_UB_ROWS * 3) >> 1)` -/
def PAGE_UB_ROWS_TIMES_1_5 (hw : HwInfo) : Nat := (PAGE_UB_ROWS hw * 3) >>> 1

/-- `#define PAGE_CACHE_UB_ROWS (VC5_PAGE_CACHE_SIZE / VC5_UIFBLOCK_ROW_SIZE)` -/
def PAGE_CACHE_UB_ROWS (hw : HwInfo) : Nat := hw.pageCacheSize / hw.uifblockRowSize

/-- `#define PAGE_CACHE_MINUS_1_5_UB_ROWS (PAGE_CACHE_UB_ROWS - PAGE_UB_ROWS_TIMES_1_5)` -/
def PAGE_CACHE_MINUS_1_5_UB_ROWS (hw : HwInfo) : Nat :=
  PAGE_CACHE_UB_ROWS hw - PAGE_UB_ROWS_TIMES_1_5 hw

/-- The v3.3 hardware values used by concrete witnesses: utile 4×4 texels at
cpp = 4, `VC5_UIFCFG_PAGE_SIZE = 4096`, `VC5_PAGE_CACHE_SIZE = 32768`,
`VC5_UIFBLOCK_ROW_SIZE = 1024` (so `PAGE_UB_ROWS_TIMES_1_5 = 6` and
`PAGE_CACHE_UB_ROWS = 32`). -/
def hwV33 : HwInfo :=
  { utile_w := 4, utile_h := 4, uifPageSize := 4096,
    pageCacheSize := 32768, uifblockRowSize := 1024 }

/-- `vc5_get_ub_pad` (vc5_resource.c:352-384), the bank-padding computation:
count of extra UIF-block rows of padding for a given padded height in texels.
(`rsc->cpp` enters only through `vc5_utile_height(rsc->cpp)`, which is the
`utile_h` field of the parameter record.) -/
def vc5_get_ub_pad (hw : HwInfo) (height : Nat) : Nat :=
  let utile_h := hw.utile_h
  let uif_block_h := utile_h * 2
  let height_ub := height / uif_block_h
  let height_offset_in_pc := height_ub % PAGE_CACHE_UB_ROWS hw
  if height_offset_in_pc = 0 then 0
  else if height_offset_in_pc < PAGE_UB_ROWS_TIMES_1_5 hw then
    (if height_ub < PAGE_CACHE_UB_ROWS hw then 0
     else PAGE_UB_ROWS_TIMES_1_5 hw - height_offset_in_pc)
  else if PAGE_CACHE_MINUS_1_5_UB_ROWS hw < height_offset_in_pc then
    PAGE_CACHE_UB_ROWS hw - height_offset_in_pc
  else 0

/-- The piecewise bank-padding value exactly as the spec (§4.2) states it, in
terms of `height_in_blocks` and the two row-count constants; used only to be
compared against `vc5_get_ub_pad`. -/
def spec_bank_padding (cache_row_count one_and_half_page_rows height_in_blocks : Nat) : Nat :=
  let offset_in_cache := height_in_blocks % cache_row_count
  if offset_in_cache = 0 then 0
  else if offset_in_cache < one_and_half_page_rows then
    (if height_in_blocks < cache_row_count then 0
     else one_and_half_page_rows - offset_in_cache)
  else if cache_row_count - one_and_half_page_rows < offset_in_cache then
    cache_row_count - offset_in_cache
  else 0

/-- C1: for every micro-tile height (i.e. every cpp) and every height in
texels, `vc5_get_ub_pad` returns exactly the spec's piecewise value at
`height_in_blocks = height / (2 * utile_height cpp)`, and the result always
lies in `[0, cache_row_count)`.  The side conditions hold of the hardware
constants (`0 < 4`, `0 < 32`, `6 ≤ 32`). -/
theorem claim_C1 (hw : HwInfo) (height : Nat)
    (hpc : 0 < PAGE_CACHE_UB_ROWS hw)
    (h15 : PAGE_UB_ROWS_TIMES_1_5 hw ≤ PAGE_CACHE_UB_ROWS hw) :
    vc5_get_ub_pad hw height =
      spec_bank_padding (PAGE_CACHE_UB_ROWS hw) (PAGE_UB_ROWS_TIMES_1_5 hw)
        (height / (2 * hw.utile_h)) ∧
    vc5_get_ub_pad hw height < PAGE_CACHE_UB_ROWS hw := by
  rw [Nat.mul_comm 2 hw.utile_h]
  have hmod : (height / (hw.utile_h * 2)) % PAGE_CACHE_UB_ROWS hw < PAGE_CACHE_UB_ROWS hw :=
    Nat.mod_lt _ hpc
  simp only [vc5_get_ub_pad, spec_bank_padding, PAGE_CACHE_MINUS_1_5_UB_ROWS]
  constructor
  · trivial
  · split_ifs <;> omega

/-- Witness for C1 at the v3.3 hardware values and height 1000 texels. -/
theorem claim_C1_witness :
    vc5_get_ub_pad hwV33 1000 =
      spec_bank_padding (PAGE_CACHE_UB_ROWS hwV33) (PAGE_UB_ROWS_TIMES_1_5 hwV33)
        (1000 / (2 * hwV33.utile_h)) ∧
    vc5_get_ub_pad hwV33 1000 < PAGE_CACHE_UB_ROWS hwV33 :=
  claim_C1 hwV33 1000 (by decide) (by decide)

/-- The tiling classes (`enum vc5_tiling_mode`, used by vc5_resource.c). -/
inductive Tiling where
  | RASTER
  | LINEARTILE
  | UBLINEAR_1_COLUMN
  | UBLINEAR_2_COLUMN
  | UIF_NO_XOR
  | UIF_XOR
deriving DecidableEq

/-- The `pipe_texture_target` kinds the planner distinguishes. -/
inductive Target where
  | Buffer
  | Tex1D
  | Tex1DArray
  | Tex2D
  | Tex2DArray
  | Tex3D
  | TexCube
deriving DecidableEq

/-- The fields of `struct pipe_resource` / `struct vc5_resource` that
`vc5_setup_slices` reads: level-0 dimensions, mip count (`last_level`),
array size, sample count, the format-derived quantities (`cpp` and the
compressed-format block dimensions, supplied by the external format
catalog), and the `tiled` flag chosen by `vc5_resource_create_with_modifiers`. -/
structure Descr where
  target : Target
  width0 : Nat
  height0 : Nat
  depth0 : Nat
  last_level : Nat
  array_size : Nat
  nr_samples : Nat
  cpp : Nat
  block_width : Nat
  block_height : Nat
  tiled : Bool
deriving DecidableEq

/-- `bool msaa = prsc->nr_samples > 1;` (vc5_resource.c:408). -/
def Descr.msaa (d : Descr) : Bool := decide (1 < d.nr_samples)

/-- `uint32_t pot_width = 2 * util_next_power_of_two(u_minify(width, 1));` -/
def pot_width (d : Descr) : Nat := 2 * util_next_power_of_two (u_minify d.width0 1)

/-- `uint32_t pot_height = 2 * util_next_power_of_two(u_minify(height, 1));` -/
def pot_height (d : Descr) : Nat := 2 * util_next_power_of_two (u_minify d.height0 1)

/-- `uint32_t pot_depth = 2 * util_next_power_of_two(u_minify(depth, 1));` -/
def pot_depth (d : Descr) : Nat := 2 * util_next_power_of_two (u_minify d.depth0 1)

/-- `uint32_t uif_block_w = utile_w * 2;` (vc5_resource.c:404). -/
def uif_block_w (hw : HwInfo) : Nat := hw.utile_w * 2

/-- `uint32_t uif_block_h = utile_h * 2;` (vc5_resource.c:405). -/
def uif_block_h (hw : HwInfo) : Nat := hw.utile_h * 2

/-- `level_width` before MSAA doubling and block rounding
(vc5_resource.c:418-424): literal minified dimension for levels 0 and 1,
minified power-of-two-padded dimension for levels ≥ 2. -/
def level_pre_width (d : Descr) (i : Nat) : Nat :=
  if i < 2 then u_minify d.width0 i else u_minify (pot_width d) i

/-- `level_height` before MSAA doubling and block rounding. -/
def level_pre_height (d : Descr) (i : Nat) : Nat :=
  if i < 2 then u_minify d.height0 i else u_minify (pot_height d) i

/-- `level_depth` (vc5_resource.c:425-428): literal for level 0,
power-of-two padded for levels ≥ 1. -/
def level_depth (d : Descr) (i : Nat) : Nat :=
  if i < 1 then u_minify d.depth0 i else u_minify (pot_depth d) i

/-- `level_width` after MSAA doubling (:430-433) and rounding up to the
format block granularity (:435). -/
def level_unpadded_width (d : Descr) (i : Nat) : Nat :=
  DIV_ROUND_UP (if d.msaa then level_pre_width d i * 2 else level_pre_width d i)
    d.block_width

/-- `level_height` after MSAA doubling and rounding up to the format block
granularity (:436). -/
def level_unpadded_height (d : Descr) (i : Nat) : Nat :=
  DIV_ROUND_UP (if d.msaa then level_pre_height d i * 2 else level_pre_height d i)
    d.block_height

/-- The tiled branch of the tile-class selector (vc5_resource.c:443-485):
given whether the resource is forced block-interleaved at the top level
(`uif_top`, true exactly for MSAA), the level index and the unpadded
dimensions, returns the chosen tiling class, the padded width and height and
the `ub_pad` term. -/
def tileGeom (hw : HwInfo) (uifTop : Bool) (i lw lh : Nat) : Tiling × Nat × Nat × Nat :=
  if (i ≠ 0 ∨ uifTop = false) ∧ (lw ≤ hw.utile_w ∨ lh ≤ hw.utile_h) then
    (.LINEARTILE, align lw hw.utile_w, align lh hw.utile_h, 0)
  else if (i ≠ 0 ∨ uifTop = false) ∧ lw ≤ uif_block_w hw then
    (.UBLINEAR_1_COLUMN, align lw (uif_block_w hw), align lh (uif_block_h hw), 0)
  else if (i ≠ 0 ∨ uifTop = false) ∧ lw ≤ 2 * uif_block_w hw then
    (.UBLINEAR_2_COLUMN, align lw (2 * uif_block_w hw), align lh (uif_block_h hw), 0)
  else
    let lw2 := align lw (4 * uif_block_w hw)
    let lh2 := align lh (uif_block_h hw)
    let pad := vc5_get_ub_pad hw lh2
    let lh3 := lh2 + pad * uif_block_h hw
    (if (lh3 / uif_block_h hw) % (hw.pageCacheSize / hw.uifblockRowSize) = 0
     then .UIF_XOR else .UIF_NO_XOR, lw2, lh3, pad)

/-- Per-level tiling class and final padded dimensions
(vc5_resource.c:438-486): the raster branch (with the 1D minimum-burst width
alignment) or the tiled selector. -/
def levelGeom (hw : HwInfo) (d : Descr) (i : Nat) : Tiling × Nat × Nat × Nat :=
  let lw := level_unpadded_width d i
  let lh := level_unpadded_height d i
  if d.tiled = false then
    (.RASTER, if d.target = .Tex1D then align lw (64 / d.cpp) else lw, lh, 0)
  else
    tileGeom hw d.msaa i lw lh

/-- `struct vc5_resource_slice`: the per-level output record. -/
structure Slice where
  tiling : Tiling
  offset : Nat
  stride : Nat
  padded_height : Nat
  size : Nat
  ub_pad : Nat
deriving DecidableEq

def emptySlice : Slice :=
  { tiling := .RASTER, offset := 0, stride := 0, padded_height := 0, size := 0, ub_pad := 0 }

/-- The slice record for level `i` before the offset is assigned
(vc5_resource.c:488-491): `stride = level_width * cpp`,
`padded_height = level_height`, `size = level_height * stride`. -/
def mkSlice (hw : HwInfo) (d : Descr) (i : Nat) : Slice :=
  let g := levelGeom hw d i
  { tiling := g.1, offset := 0, stride := g.2.1 * d.cpp,
    padded_height := g.2.2.1, size := g.2.2.1 * (g.2.1 * d.cpp),
    ub_pad := g.2.2.2 }

/-- `slice_total_size` (vc5_resource.c:493-505): the level's size times its
depth, rounded up to a hardware page after level 1 when level 1's padded
geometry exceeds the XOR-eligibility thresholds. -/
def slice_total_size (hw : HwInfo) (d : Descr) (i : Nat) : Nat :=
  let g := levelGeom hw d i
  let s := (mkSlice hw d i).size * level_depth d i
  if i = 1 ∧ 4 * uif_block_w hw < g.2.1 ∧
      PAGE_CACHE_MINUS_1_5_UB_ROWS hw * uif_block_h hw < g.2.2.1 then
    align s hw.uifPageSize
  else s

/-- The running `offset` of the descending loop (vc5_resource.c:414-509)
after `n` levels have been processed, i.e. after levels
`last_level, last_level - 1, …, last_level - n + 1`. -/
def offsetAux (hw : HwInfo) (d : Descr) : Nat → Nat
  | 0 => 0
  | n + 1 => offsetAux hw d n + slice_total_size hw d (d.last_level - n)

/-- The offset assigned to level `i` by the loop: the running offset when the
loop reaches `i`, i.e. after the `last_level - i` higher levels. -/
def offsetAt (hw : HwInfo) (d : Descr) (i : Nat) : Nat :=
  offsetAux hw d (d.last_level - i)

/-- The layout state (`rsc->slices`, `rsc->size`, `rsc->cube_map_stride`). -/
structure Layout where
  slices : List Slice
  size : Nat
  cube_map_stride : Nat
deriving DecidableEq

/-- The layout after the per-level loop (vc5_resource.c:414-510): slice `i`
holds its geometry and accumulated offset; `size` is the final running
offset. -/
def setupBase (hw : HwInfo) (d : Descr) : Layout :=
  { slices := (List.range (d.last_level + 1)).map
      (fun i => { mkSlice hw d i with offset := offsetAt hw d i }),
    size := offsetAux hw d (d.last_level + 1),
    cube_map_stride := 0 }

/-- The 4096-byte front-padding step (vc5_resource.c:520-526): if level 0's
offset is not 4k-aligned, add the deficit to the total size and to every
level's offset.  (When the deficit is zero both the source's guarded version
and this unconditional version leave the layout unchanged.) -/
def applyPageAlign (L : Layout) : Layout :=
  let page_align_offset := align (L.slices.getD 0 emptySlice).offset 4096 -
    (L.slices.getD 0 emptySlice).offset
  { slices := L.slices.map (fun s => { s with offset := s.offset + page_align_offset }),
    size := L.size + page_align_offset,
    cube_map_stride := L.cube_map_stride }

/-- The inter-layer / inter-slice stride step (vc5_resource.c:528-538). -/
def applyArrayStride (d : Descr) (L : Layout) : Layout :=
  if d.target ≠ .Tex3D then
    let cms := align ((L.slices.getD 0 emptySlice).offset +
      (L.slices.getD 0 emptySlice).size) 64
    { L with cube_map_stride := cms, size := L.size + cms * (d.array_size - 1) }
  else
    { L with cube_map_stride := (L.slices.getD 0 emptySlice).size }

/-- `vc5_setup_slices` (vc5_resource.c:386-539) as a pure function from the
descriptor to the layout. -/
def vc5_setup_slices (hw : HwInfo) (d : Descr) : Layout :=
  applyArrayStride d (applyPageAlign (setupBase hw d))

/-- `vc5_layer_offset` (vc5_resource.c:541-551), reading the fields that
`vc5_setup_slices` stored. -/
def vc5_layer_offset (hw : HwInfo) (d : Descr) (level layer : Nat) : Nat :=
  let L := vc5_setup_slices hw d
  let slice := L.slices.getD level emptySlice
  if d.target = .Tex3D then slice.offset + layer * slice.size
  else slice.offset + layer * L.cube_map_stride

/-! ### Helper lemmas -/

theorem getD_range_map {α : Type} (f : Nat → α) (n i : Nat) (e : α) (h : i < n) :
    ((List.range n).map f).getD i e = f i := by
  rw [List.getD_eq_getElem?_getD, List.getElem?_map, List.getElem?_range h]
  rfl

theorem align_emod (v a : Nat) : align v a % a = 0 := by
  unfold align
  exact Nat.mul_mod_left _ _

theorem le_align (v a : Nat) (ha : 0 < a) : v ≤ align v a := by
  have h1 := Nat.div_add_mod (v + a - 1) a
  have h2 : (v + a - 1) % a < a := Nat.mod_lt _ ha
  unfold align
  rw [Nat.mul_comm]
  generalize a * ((v + a - 1) / a) = X at h1 ⊢
  omega

/-- The slice stored for level `i` by the loop of `vc5_setup_slices`
(before the later offset adjustments). -/
theorem setupBase_slices_getD (hw : HwInfo) (d : Descr) (i : Nat) (e : Slice)
    (h : i ≤ d.last_level) :
    (setupBase hw d).slices.getD i e =
      { mkSlice hw d i with offset := offsetAt hw d i } := by
  unfold setupBase
  exact getD_range_map _ _ _ _ (by omega)

/-- The front-padding deficit that `vc5_setup_slices` computes from level 0's
accumulated offset (`page_align_offset`, vc5_resource.c:520). -/
def page_align_offset (hw : HwInfo) (d : Descr) : Nat :=
  align (offsetAt hw d 0) 4096 - offsetAt hw d 0

theorem applyArrayStride_slices (d : Descr) (L : Layout) :
    (applyArrayStride d L).slices = L.slices := by
  unfold applyArrayStride
  split <;> rfl

/-- The slice stored for level `i` in the final layout: the loop's slice with
the front-padding deficit added to its offset. -/
theorem final_slices_getD (hw : HwInfo) (d : Descr) (i : Nat) (e : Slice)
    (h : i ≤ d.last_level) :
    (vc5_setup_slices hw d).slices.getD i e =
      { mkSlice hw d i with offset := offsetAt hw d i + page_align_offset hw d } := by
  unfold vc5_setup_slices
  rw [applyArrayStride_slices]
  unfold applyPageAlign setupBase
  simp only [List.map_map]
  rw [getD_range_map _ _ _ _ (by omega : i < d.last_level + 1),
      getD_range_map _ _ _ _ (by omega : 0 < d.last_level + 1)]
  rfl

/-- The running offset decreases through the loop by exactly the processed
level's `slice_total_size`: the offset assigned to level `L - 1` is the
offset assigned to level `L` plus level `L`'s contribution. -/
theorem offsetAt_step (hw : HwInfo) (d : Descr) (L : Nat)
    (h1 : 1 ≤ L) (h2 : L ≤ d.last_level) :
    offsetAt hw d (L - 1) = offsetAt hw d L + slice_total_size hw d L := by
  unfold offsetAt
  have e1 : d.last_level - (L - 1) = (d.last_level - L) + 1 := by omega
  rw [e1]
  show offsetAux hw d (d.last_level - L) +
      slice_total_size hw d (d.last_level - (d.last_level - L)) = _
  have e2 : d.last_level - (d.last_level - L) = L := by omega
  rw [e2]

/-! ### Claim C2 -/

/-- C2 counterexample: a multisampled resource's top level (`i = 0`,
`uif_top = true`) whose padded width (8) is at most `uif_block_w` (8).  The
claim (following the spec, which states the multisample exception only for
the `LINEAR_TILE` rung) says this selects `UBLINEAR_1_COLUMN`; the code
guards all three small rungs with `(i != 0 || !uif_top)` and therefore
selects a block-interleaved class (`UIF_NO_XOR` here, at height 64). -/
theorem claim_C2_counterexample :
    8 ≤ uif_block_w hwV33 ∧
    (tileGeom hwV33 true 0 8 64).1 = Tiling.UIF_NO_XOR ∧
    (tileGeom hwV33 true 0 8 64).1 ≠ Tiling.UBLINEAR_1_COLUMN := by
  decide

/-- C2 amended: the decision list applies in order with first match winning,
but the not-the-multisampled-top-level condition guards all three non-UIF
rungs, not just the `LINEAR_TILE` one; a multisampled top level always falls
through to the block-interleaved (UIF) case regardless of its width. -/
theorem claim_C2 (hw : HwInfo) (uifTop : Bool) (i lw lh : Nat) :
    ((i ≠ 0 ∨ uifTop = false) ∧ (lw ≤ hw.utile_w ∨ lh ≤ hw.utile_h) →
      tileGeom hw uifTop i lw lh =
        (.LINEARTILE, align lw hw.utile_w, align lh hw.utile_h, 0)) ∧
    ((i ≠ 0 ∨ uifTop = false) ∧ ¬(lw ≤ hw.utile_w ∨ lh ≤ hw.utile_h) ∧
        lw ≤ uif_block_w hw →
      tileGeom hw uifTop i lw lh =
        (.UBLINEAR_1_COLUMN, align lw (uif_block_w hw), align lh (uif_block_h hw), 0)) ∧
    ((i ≠ 0 ∨ uifTop = false) ∧ ¬(lw ≤ hw.utile_w ∨ lh ≤ hw.utile_h) ∧
        ¬lw ≤ uif_block_w hw ∧ lw ≤ 2 * uif_block_w hw →
      tileGeom hw uifTop i lw lh =
        (.UBLINEAR_2_COLUMN, align lw (2 * uif_block_w hw), align lh (uif_block_h hw), 0)) ∧
    (i = 0 ∧ uifTop = true →
      (tileGeom hw uifTop i lw lh).1 = Tiling.UIF_XOR ∨
      (tileGeom hw uifTop i lw lh).1 = Tiling.UIF_NO_XOR) := by
  refine ⟨?_, ?_, ?_, ?_⟩
  · intro h
    unfold tileGeom
    rw [if_pos h]
  · intro h
    unfold tileGeom
    rw [if_neg (fun hc => h.2.1 hc.2), if_pos ⟨h.1, h.2.2⟩]
  · intro h
    unfold tileGeom
    rw [if_neg (fun hc => h.2.1 hc.2), if_neg (fun hc => h.2.2.1 hc.2),
        if_pos ⟨h.1, h.2.2.2⟩]
  · intro h
    obtain ⟨hi, ht⟩ := h
    subst hi; subst ht
    unfold tileGeom
    rw [if_neg (by simp), if_neg (by simp), if_neg (by simp)]
    dsimp only
    split
    · exact Or.inl rfl
    · exact Or.inr rfl

/-- Witness for C2's first rung at concrete inputs. -/
theorem claim_C2_witness :
    tileGeom hwV33 false 0 2 2 =
      (.LINEARTILE, align 2 hwV33.utile_w, align 2 hwV33.utile_h, 0) :=
  (claim_C2 hwV33 false 0 2 2).1 (by decide)

/-! ### Claim C3 -/

/-- C3: a tiled level on which none of the three earlier rungs matched takes
the block-interleaved case: width padded to `4 * uif_block_w`, height padded
to `uif_block_h` and then increased by `ub_pad * uif_block_h`, and the class
is `UIF_XOR` exactly when the resulting padded height in UIF-block rows is a
multiple of `VC5_PAGE_CACHE_SIZE / VC5_UIFBLOCK_ROW_SIZE`. -/
theorem claim_C3 (hw : HwInfo) (d : Descr) (i : Nat)
    (htiled : d.tiled = true)
    (h1 : ¬((i ≠ 0 ∨ d.msaa = false) ∧
      (level_unpadded_width d i ≤ hw.utile_w ∨ level_unpadded_height d i ≤ hw.utile_h)))
    (h2 : ¬((i ≠ 0 ∨ d.msaa = false) ∧ level_unpadded_width d i ≤ uif_block_w hw))
    (h3 : ¬((i ≠ 0 ∨ d.msaa = false) ∧ level_unpadded_width d i ≤ 2 * uif_block_w hw)) :
    levelGeom hw d i =
      (if (align (level_unpadded_height d i) (uif_block_h hw) +
            vc5_get_ub_pad hw (align (level_unpadded_height d i) (uif_block_h hw)) *
              uif_block_h hw) / uif_block_h hw % PAGE_CACHE_UB_ROWS hw = 0
         then Tiling.UIF_XOR else Tiling.UIF_NO_XOR,
       align (level_unpadded_width d i) (4 * uif_block_w hw),
       align (level_unpadded_height d i) (uif_block_h hw) +
         vc5_get_ub_pad hw (align (level_unpadded_height d i) (uif_block_h hw)) *
           uif_block_h hw,
       vc5_get_ub_pad hw (align (level_unpadded_height d i) (uif_block_h hw))) := by
  unfold levelGeom tileGeom
  rw [htiled]
  simp only [Bool.true_eq_false, if_false]
  rw [if_neg h1, if_neg h2, if_neg h3]
  rfl

/-- The 1024×1024, 11-level, cpp-4 tiled 2D resource of the spec's concrete
scenario (§8); also reused at 512×512 for other witnesses. -/
def d2D (w h : Nat) (levels : Nat) : Descr :=
  { target := .Tex2D, width0 := w, height0 := h, depth0 := 1,
    last_level := levels, array_size := 1, nr_samples := 1, cpp := 4,
    block_width := 1, block_height := 1, tiled := true }

/-- Witness for C3: level 0 of a tiled 512×512 cpp-4 2D resource reaches the
block-interleaved case. -/
theorem claim_C3_witness :
    levelGeom hwV33 (d2D 512 512 9) 0 =
      (if (align (level_unpadded_height (d2D 512 512 9) 0) (uif_block_h hwV33) +
            vc5_get_ub_pad hwV33 (align (level_unpadded_height (d2D 512 512 9) 0) (uif_block_h hwV33)) *
              uif_block_h hwV33) / uif_block_h hwV33 % PAGE_CACHE_UB_ROWS hwV33 = 0
         then Tiling.UIF_XOR else Tiling.UIF_NO_XOR,
       align (level_unpadded_width (d2D 512 512 9) 0) (4 * uif_block_w hwV33),
       align (level_unpadded_height (d2D 512 512 9) 0) (uif_block_h hwV33) +
         vc5_get_ub_pad hwV33 (align (level_unpadded_height (d2D 512 512 9) 0) (uif_block_h hwV33)) *
           uif_block_h hwV33,
       vc5_get_ub_pad hwV33 (align (level_unpadded_height (d2D 512 512 9) 0) (uif_block_h hwV33))) :=
  claim_C3 hwV33 (d2D 512 512 9) 0 (by decide) (by decide) (by decide) (by decide)

/-! ### Claim C4 -/

/-- C4: the pre-alignment level dimensions: width and height are the literal
level-0 dimensions divided by `2^i` (floored at 1) for `i < 2` and the
minification of `2 * next_power_of_two (minify (dim, 1))` for `i ≥ 2`, while
depth uses the literal dimension only for `i < 1` and the level-1-derived
power-of-two padded value for every `i ≥ 1`. -/
theorem claim_C4 (d : Descr) (i : Nat) :
    level_pre_width d i =
      max ((if i < 2 then d.width0
            else 2 * util_next_power_of_two (max (d.width0 / 2) 1)) / 2 ^ i) 1 ∧
    level_pre_height d i =
      max ((if i < 2 then d.height0
            else 2 * util_next_power_of_two (max (d.height0 / 2) 1)) / 2 ^ i) 1 ∧
    level_depth d i =
      max ((if i < 1 then d.depth0
            else 2 * util_next_power_of_two (max (d.depth0 / 2) 1)) / 2 ^ i) 1 := by
  have hdiv : ∀ x : Nat, x >>> 1 = x / 2 := fun x => by
    rw [Nat.shiftRight_eq_div_pow, Nat.pow_one]
  refine ⟨?_, ?_, ?_⟩ <;>
    simp only [level_pre_width, level_pre_height, level_depth, pot_width,
      pot_height, pot_depth, u_minify, Nat.shiftRight_eq_div_pow, hdiv] <;>
    split <;> rfl

/-! ### Claim C5 -/

/-- C5: a 3D target's inter-slice stride (`cube_map_stride`) is exactly the
level-0 slice size; any other target's inter-layer stride is
`align (offset0 + size0, 64)` and the total size is the accumulated base
size plus that stride times `array_size - 1`. -/
theorem claim_C5 (hw : HwInfo) (d : Descr) :
    (vc5_setup_slices hw d).cube_map_stride =
      (if d.target = Target.Tex3D
       then ((vc5_setup_slices hw d).slices.getD 0 emptySlice).size
       else align (((vc5_setup_slices hw d).slices.getD 0 emptySlice).offset +
         ((vc5_setup_slices hw d).slices.getD 0 emptySlice).size) 64) ∧
    (vc5_setup_slices hw d).size =
      (if d.target = Target.Tex3D
       then (applyPageAlign (setupBase hw d)).size
       else (applyPageAlign (setupBase hw d)).size +
         (vc5_setup_slices hw d).cube_map_stride * (d.array_size - 1)) := by
  unfold vc5_setup_slices
  rw [applyArrayStride_slices]
  unfold applyArrayStride
  by_cases h3 : d.target = Target.Tex3D
  · simp only [h3, ne_eq, not_true_eq_false, if_false, if_true]
    constructor <;> trivial
  · simp only [h3, ne_eq, not_false_eq_true, if_true, if_false]
    constructor <;> trivial

/-! ### Claim C6 -/

/-- The layout-relevant behaviour of `vc5_resource_from_handle`
(vc5_resource.c:681-756): a linear-modifier import with winsys offset 0
recomputes the layout with `vc5_setup_slices` (with `tiled = false`, as the
modifier switch sets) and fails unless the caller-supplied stride equals the
computed level-0 stride.  The buffer-object open is an external collaborator
call and is elided (its failure is an allocator failure, not a layout
decision). -/
def vc5_resource_from_handle (hw : HwInfo) (d : Descr) (modifierLinear : Bool)
    (whOffset whStride : Nat) : Option Layout :=
  if modifierLinear = false then none
  else if whOffset ≠ 0 then none
  else
    let L := vc5_setup_slices hw { d with tiled := false }
    if whStride ≠ (L.slices.getD 0 emptySlice).stride then none
    else some L

/-- C6: the import path succeeds exactly when the caller-supplied stride
equals the recomputed level-0 stride; every other stride value yields a hard
failure (`none`), not a recovered resource. -/
theorem claim_C6 (hw : HwInfo) (d : Descr) (s : Nat) :
    vc5_resource_from_handle hw d true 0
        ((vc5_setup_slices hw { d with tiled := false }).slices.getD 0 emptySlice).stride =
      some (vc5_setup_slices hw { d with tiled := false }) ∧
    (s ≠ ((vc5_setup_slices hw { d with tiled := false }).slices.getD 0 emptySlice).stride →
      vc5_resource_from_handle hw d true 0 s = none) := by
  unfold vc5_resource_from_handle
  refine ⟨?_, fun hs => ?_⟩
  · rw [if_neg (by decide), if_neg (by decide)]
    dsimp only
    rw [if_neg (not_not_intro rfl)]
  · rw [if_neg (by decide), if_neg (by decide)]
    dsimp only
    rw [if_pos hs]

/-- Witness for C6: importing an untiled 100×100 cpp-4 2D surface succeeds
at the computed stride and fails at the perturbed stride 399. -/
theorem claim_C6_witness :
    (vc5_resource_from_handle hwV33 (d2D 100 100 0) true 0
        ((vc5_setup_slices hwV33 { d2D 100 100 0 with tiled := false }).slices.getD 0
          emptySlice).stride =
      some (vc5_setup_slices hwV33 { d2D 100 100 0 with tiled := false })) ∧
    vc5_resource_from_handle hwV33 (d2D 100 100 0) true 0 399 = none :=
  ⟨(claim_C6 hwV33 (d2D 100 100 0) 399).1,
   (claim_C6 hwV33 (d2D 100 100 0) 399).2 (by decide)⟩

/-! ### Claim C7 -/

/-- C7: offsets are assigned by walking the levels from the highest index
(smallest mip) down to level 0 — so each level's offset is the next higher
level's offset plus that level's total contribution — and hence the offset
sequence is monotonically non-decreasing as the level index decreases. -/
theorem claim_C7 (hw : HwInfo) (d : Descr) (L : Nat)
    (h1 : 1 ≤ L) (h2 : L ≤ d.last_level) :
    ((vc5_setup_slices hw d).slices.getD (L - 1) emptySlice).offset =
      ((vc5_setup_slices hw d).slices.getD L emptySlice).offset +
        slice_total_size hw d L ∧
    ((vc5_setup_slices hw d).slices.getD L emptySlice).offset ≤
      ((vc5_setup_slices hw d).slices.getD (L - 1) emptySlice).offset := by
  rw [final_slices_getD hw d (L - 1) _ (by omega), final_slices_getD hw d L _ h2]
  dsimp only
  rw [offsetAt_step hw d L h1 h2]
  omega

/-- Witness for C7 at level 1 of the tiled 512×512 resource. -/
theorem claim_C7_witness :
    ((vc5_setup_slices hwV33 (d2D 512 512 9)).slices.getD 0 emptySlice).offset =
      ((vc5_setup_slices hwV33 (d2D 512 512 9)).slices.getD 1 emptySlice).offset +
        slice_total_size hwV33 (d2D 512 512 9) 1 ∧
    ((vc5_setup_slices hwV33 (d2D 512 512 9)).slices.getD 1 emptySlice).offset ≤
      ((vc5_setup_slices hwV33 (d2D 512 512 9)).slices.getD 0 emptySlice).offset :=
  claim_C7 hwV33 (d2D 512 512 9) 1 (by decide) (by decide)

/-! ### Claim C8 -/

/-- C8: the front-padding step adds exactly the alignment deficit
`align (offset0, 4096) - offset0` to the total size and to every level's
offset, making level 0's offset 4096-aligned, while preserving all pairwise
offset differences and every level's stride, size, padded height, bank
padding and tiling class. -/
theorem claim_C8 (hw : HwInfo) (d : Descr) (i j : Nat)
    (hi : i ≤ d.last_level) (hj : j ≤ d.last_level) :
    (applyPageAlign (setupBase hw d)).size =
      (setupBase hw d).size + page_align_offset hw d ∧
    ((applyPageAlign (setupBase hw d)).slices.getD i emptySlice).offset =
      ((setupBase hw d).slices.getD i emptySlice).offset + page_align_offset hw d ∧
    ((applyPageAlign (setupBase hw d)).slices.getD 0 emptySlice).offset % 4096 = 0 ∧
    ((applyPageAlign (setupBase hw d)).slices.getD i emptySlice).offset -
        ((applyPageAlign (setupBase hw d)).slices.getD j emptySlice).offset =
      ((setupBase hw d).slices.getD i emptySlice).offset -
        ((setupBase hw d).slices.getD j emptySlice).offset ∧
    ((applyPageAlign (setupBase hw d)).slices.getD i emptySlice).stride =
      ((setupBase hw d).slices.getD i emptySlice).stride ∧
    ((applyPageAlign (setupBase hw d)).slices.getD i emptySlice).size =
      ((setupBase hw d).slices.getD i emptySlice).size ∧
    ((applyPageAlign (setupBase hw d)).slices.getD i emptySlice).padded_height =
      ((setupBase hw d).slices.getD i emptySlice).padded_height ∧
    ((applyPageAlign (setupBase hw d)).slices.getD i emptySlice).ub_pad =
      ((setupBase hw d).slices.getD i emptySlice).ub_pad ∧
    ((applyPageAlign (setupBase hw d)).slices.getD i emptySlice).tiling =
      ((setupBase hw d).slices.getD i emptySlice).tiling := by
  have hfin : ∀ k, k ≤ d.last_level →
      (applyPageAlign (setupBase hw d)).slices.getD k emptySlice =
        { mkSlice hw d k with offset := offsetAt hw d k + page_align_offset hw d } := by
    intro k hk
    rw [← applyArrayStride_slices d (applyPageAlign (setupBase hw d))]
    exact final_slices_getD hw d k _ hk
  have hsize : (applyPageAlign (setupBase hw d)).size =
      (setupBase hw d).size + page_align_offset hw d := by
    unfold applyPageAlign
    rw [setupBase_slices_getD hw d 0 _ (Nat.zero_le _)]
    rfl
  have hout : ∀ k, k ≤ d.last_level →
      ((setupBase hw d).slices.getD k emptySlice) =
        { mkSlice hw d k with offset := offsetAt hw d k } :=
    fun k hk => setupBase_slices_getD hw d k _ hk
  have hal : offsetAt hw d 0 + page_align_offset hw d = align (offsetAt hw d 0) 4096 := by
    have := le_align (offsetAt hw d 0) 4096 (by omega)
    unfold page_align_offset
    omega
  rw [hfin i hi, hfin j hj, hfin 0 (Nat.zero_le _), hout i hi, hout j hj]
  dsimp only
  refine ⟨hsize, rfl, ?_, by omega, rfl, rfl, rfl, rfl, rfl⟩
  rw [hal]
  exact align_emod _ _

/-- Witness for C8 on the tiled 512×512 resource (deficit 2624) at levels 0
and 1. -/
theorem claim_C8_witness :
    (applyPageAlign (setupBase hwV33 (d2D 512 512 9))).size =
      (setupBase hwV33 (d2D 512 512 9)).size + page_align_offset hwV33 (d2D 512 512 9) ∧
    ((applyPageAlign (setupBase hwV33 (d2D 512 512 9))).slices.getD 0 emptySlice).offset =
      ((setupBase hwV33 (d2D 512 512 9)).slices.getD 0 emptySlice).offset +
        page_align_offset hwV33 (d2D 512 512 9) ∧
    ((applyPageAlign (setupBase hwV33 (d2D 512 512 9))).slices.getD 0 emptySlice).offset %
      4096 = 0 ∧
    ((applyPageAlign (setupBase hwV33 (d2D 512 512 9))).slices.getD 0 emptySlice).offset -
        ((applyPageAlign (setupBase hwV33 (d2D 512 512 9))).slices.getD 1 emptySlice).offset =
      ((setupBase hwV33 (d2D 512 512 9)).slices.getD 0 emptySlice).offset -
        ((setupBase hwV33 (d2D 512 512 9)).slices.getD 1 emptySlice).offset ∧
    ((applyPageAlign (setupBase hwV33 (d2D 512 512 9))).slices.getD 0 emptySlice).stride =
      ((setupBase hwV33 (d2D 512 512 9)).slices.getD 0 emptySlice).stride ∧
    ((applyPageAlign (setupBase hwV33 (d2D 512 512 9))).slices.getD 0 emptySlice).size =
      ((setupBase hwV33 (d2D 512 512 9)).slices.getD 0 emptySlice).size ∧
    ((applyPageAlign (setupBase hwV33 (d2D 512 512 9))).slices.getD 0 emptySlice).padded_height =
      ((setupBase hwV33 (d2D 512 512 9)).slices.getD 0 emptySlice).padded_height ∧
    ((applyPageAlign (setupBase hwV33 (d2D 512 512 9))).slices.getD 0 emptySlice).ub_pad =
      ((setupBase hwV33 (d2D 512 512 9)).slices.getD 0 emptySlice).ub_pad ∧
    ((applyPageAlign (setupBase hwV33 (d2D 512 512 9))).slices.getD 0 emptySlice).tiling =
      ((setupBase hwV33 (d2D 512 512 9)).slices.getD 0 emptySlice).tiling :=
  claim_C8 hwV33 (d2D 512 512 9) 0 1 (by decide) (by decide)

/-! ### Claim C9 -/

/-- C9 counterexample: on the tiled 512×512 cpp-4 2D resource with 10 mip
levels, level 1's padded geometry (256×256) exceeds both thresholds, so the
claim's condition holds — yet level 0's pre-front-padding offset is
`349632 = 85 * 4096 + 1472`, not page-aligned: only level 1's own
contribution is page-rounded, and the sum of the smaller levels' sizes
(1472 bytes here) is not. -/
theorem claim_C9_counterexample :
    (4 * uif_block_w hwV33 < (levelGeom hwV33 (d2D 512 512 9) 1).2.1 ∧
     PAGE_CACHE_MINUS_1_5_UB_ROWS hwV33 * uif_block_h hwV33 <
       (levelGeom hwV33 (d2D 512 512 9) 1).2.2.1) ∧
    offsetAt hwV33 (d2D 512 512 9) 0 % hwV33.uifPageSize ≠ 0 := by
  decide

/-- C9 amended: the accumulated contribution is rounded up to the page size
exactly when the level is level 1 and its padded width exceeds
`4 * uif_block_w` and its padded height exceeds
`(cache_row_count - one_and_half_page_rows) * uif_block_h`; in that case
level 1's contribution is a multiple of the page size, so level 0's
pre-front-padding offset exceeds level 1's by a page multiple — but level
0's absolute offset need not itself be page-aligned. -/
theorem claim_C9 (hw : HwInfo) (d : Descr) (h1 : 1 ≤ d.last_level) :
    (∀ i, slice_total_size hw d i =
      (if i = 1 ∧ 4 * uif_block_w hw < (levelGeom hw d i).2.1 ∧
          PAGE_CACHE_MINUS_1_5_UB_ROWS hw * uif_block_h hw < (levelGeom hw d i).2.2.1
       then align ((mkSlice hw d i).size * level_depth d i) hw.uifPageSize
       else (mkSlice hw d i).size * level_depth d i)) ∧
    ((4 * uif_block_w hw < (levelGeom hw d 1).2.1 ∧
      PAGE_CACHE_MINUS_1_5_UB_ROWS hw * uif_block_h hw < (levelGeom hw d 1).2.2.1) →
      slice_total_size hw d 1 % hw.uifPageSize = 0 ∧
      offsetAt hw d 0 = offsetAt hw d 1 + slice_total_size hw d 1) := by
  constructor
  · intro i
    rfl
  · intro hc
    constructor
    · unfold slice_total_size
      rw [if_pos ⟨rfl, hc.1, hc.2⟩]
      exact align_emod _ _
    · exact offsetAt_step hw d 1 le_rfl h1

/-- Witness for C9's amended statement on the 512×512 resource. -/
theorem claim_C9_witness :
    (∀ i, slice_total_size hwV33 (d2D 512 512 9) i =
      (if i = 1 ∧ 4 * uif_block_w hwV33 < (levelGeom hwV33 (d2D 512 512 9) i).2.1 ∧
          PAGE_CACHE_MINUS_1_5_UB_ROWS hwV33 * uif_block_h hwV33 <
            (levelGeom hwV33 (d2D 512 512 9) i).2.2.1
       then align ((mkSlice hwV33 (d2D 512 512 9) i).size * level_depth (d2D 512 512 9) i)
         hwV33.uifPageSize
       else (mkSlice hwV33 (d2D 512 512 9) i).size * level_depth (d2D 512 512 9) i)) ∧
    ((4 * uif_block_w hwV33 < (levelGeom hwV33 (d2D 512 512 9) 1).2.1 ∧
      PAGE_CACHE_MINUS_1_5_UB_ROWS hwV33 * uif_block_h hwV33 <
        (levelGeom hwV33 (d2D 512 512 9) 1).2.2.1) →
      slice_total_size hwV33 (d2D 512 512 9) 1 % hwV33.uifPageSize = 0 ∧
      offsetAt hwV33 (d2D 512 512 9) 0 =
        offsetAt hwV33 (d2D 512 512 9) 1 + slice_total_size hwV33 (d2D 512 512 9) 1) :=
  claim_C9 hwV33 (d2D 512 512 9) (by decide)

/-! ### Claim C10 -/

/-- C10: `vc5_layer_offset` steps by the level's own per-level slice size for
3D targets (while the stored inter-slice stride is the level-0 slice size)
and by the inter-layer stride (`cube_map_stride`) for all other targets. -/
theorem claim_C10 (hw : HwInfo) (d : Descr) (level layer : Nat) :
    (d.target = Target.Tex3D →
      vc5_layer_offset hw d level layer =
        ((vc5_setup_slices hw d).slices.getD level emptySlice).offset +
          layer * ((vc5_setup_slices hw d).slices.getD level emptySlice).size ∧
      (vc5_setup_slices hw d).cube_map_stride =
        ((vc5_setup_slices hw d).slices.getD 0 emptySlice).size) ∧
    (d.target ≠ Target.Tex3D →
      vc5_layer_offset hw d level layer =
        ((vc5_setup_slices hw d).slices.getD level emptySlice).offset +
          layer * (vc5_setup_slices hw d).cube_map_stride) := by
  constructor
  · intro h3
    constructor
    · unfold vc5_layer_offset
      rw [if_pos h3]
    · unfold vc5_setup_slices
      rw [applyArrayStride_slices]
      unfold applyArrayStride
      rw [if_neg (not_not_intro h3)]
  · intro h3
    unfold vc5_layer_offset
    rw [if_neg h3]

/-- The spec's concrete 3D scenario: a tiled 256×256×256 cpp-4 resource
(three levels here). -/
def d3D : Descr :=
  { target := .Tex3D, width0 := 256, height0 := 256, depth0 := 256,
    last_level := 2, array_size := 1, nr_samples := 1, cpp := 4,
    block_width := 1, block_height := 1, tiled := true }

/-- Witness for C10 on the 3D resource at level 1, slice 3. -/
theorem claim_C10_witness :
    vc5_layer_offset hwV33 d3D 1 3 =
      ((vc5_setup_slices hwV33 d3D).slices.getD 1 emptySlice).offset +
        3 * ((vc5_setup_slices hwV33 d3D).slices.getD 1 emptySlice).size ∧
    (vc5_setup_slices hwV33 d3D).cube_map_stride =
      ((vc5_setup_slices hwV33 d3D).slices.getD 0 emptySlice).size :=
  (claim_C10 hwV33 d3D 1 3).1 rfl

end VC5
